import Mathlib

/-!
Verification of the introspection/debugging core of `boa` (the file
`boa/contracts/vyper/vyper_contract.py`): the storage key unwinder, the
storage dumper, pc-based error/source attribution, stack-trace
reconstruction, event-log decoding, the error matcher and return-value
marshaling, shallowly embedded in Lean.

Machine bytes are modelled as `List Nat` (one `Nat` per byte); Python
dictionaries as association lists looked up with `assoc` (first match wins,
insertion order preserved, exactly the observable behaviour of a `dict`).
-/

/-- Byte strings: one list element per byte. -/
abbrev Bytes := List Nat

/-- Association-list lookup, the model of a Python `dict` membership test
plus indexing (`k in d` / `d[k]`). -/
def assoc {α β : Type} [BEq α] (m : List (α × β)) (k : α) : Option β :=
  match m with
  | [] => none
  | (k2, v) :: rest => if k == k2 then some v else assoc rest k

/-- Big-endian integer value of a byte string, the model of
`int.from_bytes(b, "big")` (`to_int` in `boa.vm.utils`, used by
`StorageVar.get` on the unwound path head). -/
def beNat (bs : Bytes) : Nat :=
  bs.foldl (fun acc b => acc * 256 + b) 0

/-! ## Storage Key Unwinder (`unwrap_storage_key`, vyper_contract.py:323)

The source function recurses on the first 32 bytes of the preimage of `k`
whenever `k` is a key of the sha3 preimage database, then appends the
remaining bytes on return; a key with no preimage is appended as-is.  The
source recursion carries no bound of its own, so the embedding takes an
explicit recursion budget (`fuel`); `none` models a run of the source that
never returns.  `unwrap_storage_key` fixes the budget at one more than the
database size, which is enough for every run of the source that returns at
all (a longer lookup chain revisits a key and therefore never returns). -/

def unwrapAux (sha3_db : List (Bytes × Bytes)) : Nat → Bytes → Option (List Bytes)
  | 0, _ => none
  | fuel + 1, k =>
    match assoc sha3_db k with
    | none => some [k]
    | some preimage =>
      match unwrapAux sha3_db fuel (preimage.take 32) with
      | none => none
      | some path => some (path ++ [preimage.drop 32])

/-- The unwinder: sequence of pre-hash components ("path"), root to leaf. -/
def unwrap_storage_key (sha3_db : List (Bytes × Bytes)) (k : Bytes) :
    Option (List Bytes) :=
  unwrapAux sha3_db (sha3_db.length + 1) k

/-- A run of the source that never returns: no recursion budget produces a
result. -/
def unwrapDiverges (sha3_db : List (Bytes × Bytes)) (k : Bytes) : Prop :=
  ∀ fuel, unwrapAux sha3_db fuel k = none

/-- The prefix-lookup chain starting at `k` falls out of the database within
`n` recursive steps; exactly the runs of the source that return. -/
def haltsIn (sha3_db : List (Bytes × Bytes)) : Nat → Bytes → Bool
  | 0, k => (assoc sha3_db k).isNone
  | n + 1, k =>
    match assoc sha3_db k with
    | none => true
    | some preimage => haltsIn sha3_db n (preimage.take 32)

theorem unwrapAux_mono (sha3_db : List (Bytes × Bytes)) :
    ∀ f f' : Nat, ∀ k l, f ≤ f' → unwrapAux sha3_db f k = some l →
      unwrapAux sha3_db f' k = some l := by
  intro f f'
  induction f' generalizing f with
  | zero =>
    intro k l hle h
    interval_cases f
    simp [unwrapAux] at h
  | succ f' ih =>
    intro k l hle h
    match f, h with
    | 0, h => simp [unwrapAux] at h
    | f + 1, h =>
      have hle2 : f ≤ f' := Nat.le_of_succ_le_succ hle
      rw [unwrapAux] at h ⊢
      cases hdb : assoc sha3_db k with
      | none => simp only [hdb] at h ⊢; exact h
      | some preimage =>
        simp only [hdb] at h ⊢
        cases hrec : unwrapAux sha3_db f (preimage.take 32) with
        | none => simp [hrec] at h
        | some p =>
          simp only [hrec] at h
          simp only [ih f (preimage.take 32) p hle2 hrec]
          exact h

theorem unwrapAux_halts (sha3_db : List (Bytes × Bytes)) :
    ∀ n k, haltsIn sha3_db n k = true →
      (unwrapAux sha3_db (n + 1) k).isSome = true := by
  intro n
  induction n with
  | zero =>
    intro k h
    rw [haltsIn] at h
    rw [unwrapAux]
    cases hdb : assoc sha3_db k with
    | none => simp
    | some preimage => rw [hdb] at h; simp at h
  | succ n ih =>
    intro k h
    rw [haltsIn] at h
    rw [unwrapAux]
    cases hdb : assoc sha3_db k with
    | none => simp [hdb]
    | some preimage =>
      simp only [hdb] at h ⊢
      have hs := ih (preimage.take 32) h
      cases hrec : unwrapAux sha3_db (n + 1) (preimage.take 32) with
      | none => rw [hrec] at hs; simp at hs
      | some p => simp [hrec]

/-! Concrete preimage database of the spec's unwinder test vector:
`hash(slot ‖ k1) = h1`, `hash(h1 ‖ k2) = h2`, and `h3` unknown. -/

def exSlot : Bytes := List.replicate 32 2
def exK1 : Bytes := List.replicate 32 3
def exH1 : Bytes := List.replicate 32 4
def exK2 : Bytes := List.replicate 32 5
def exH2 : Bytes := List.replicate 32 6
def exH3 : Bytes := List.replicate 32 9
def exDB1 : List (Bytes × Bytes) := [(exH1, exSlot ++ exK1), (exH2, exH1 ++ exK2)]

/-- A corrupted database in which a digest is its own preimage's 32-byte
prefix component: the source recursion calls itself on the same key. -/
def cycKey : Bytes := List.replicate 32 7
def cycDB : List (Bytes × Bytes) := [(cycKey, cycKey ++ [1])]

theorem cycDB_step : ∀ fuel, unwrapAux cycDB fuel cycKey = none := by
  intro fuel
  induction fuel with
  | zero => rfl
  | succ n ih =>
    rw [unwrapAux]
    have hdb : assoc cycDB cycKey = some (cycKey ++ [1]) := by decide
    have htake : (cycKey ++ [1]).take 32 = cycKey := by decide
    simp only [hdb, htake, ih]

/-- C1. The Storage Key Unwinder returns the root-to-leaf component path: a
key with a preimage contributes the path of the preimage's first 32 bytes
followed by the remaining bytes; a key with no preimage is the path `[k]`.
On the database with `hash(slot ‖ k1) = h1` and `hash(h1 ‖ k2) = h2`,
`unwind(h2) = [slot, k1, k2]`; for unknown `h3`, `unwind(h3) = [h3]`. -/
theorem C1_unwrap_path (sha3_db : List (Bytes × Bytes)) (k : Bytes) :
    (assoc sha3_db k = none → unwrap_storage_key sha3_db k = some [k]) ∧
    (∀ preimage l, assoc sha3_db k = some preimage →
      unwrapAux sha3_db sha3_db.length (preimage.take 32) = some l →
      unwrap_storage_key sha3_db k = some (l ++ [preimage.drop 32]) ∧
      unwrap_storage_key sha3_db (preimage.take 32) = some l) ∧
    unwrap_storage_key exDB1 exH2 = some [exSlot, exK1, exK2] ∧
    unwrap_storage_key exDB1 exH3 = some [exH3] := by
  refine ⟨?_, ?_, by decide, by decide⟩
  · intro h
    rw [unwrap_storage_key, unwrapAux, h]
  · intro preimage l hdb hrec
    constructor
    · rw [unwrap_storage_key, unwrapAux]
      simp only [hdb, hrec]
    · exact unwrapAux_mono sha3_db sha3_db.length (sha3_db.length + 1)
        (preimage.take 32) l (Nat.le_succ _) hrec

/-- C5 counterexample. On the corrupted database `cycDB`, whose single
entry's preimage has the looked-up digest itself as its 32-byte prefix, the
unwinder does not return for any recursion budget: the source recurses on
the same key forever. -/
theorem C5_cex_cyclic : unwrapDiverges cycDB cycKey :=
  cycDB_step

/-- C5 (amended). The unwinder terminates exactly as far as the database's
actual prefix-lookup chains do: whenever the chain from `k` falls out of the
database within `n` steps, a recursion budget of `n + 1` returns a path.
The bound comes from the database's contents, not from the path-building
loop construction; on a corrupted database whose chain never leaves the
database (`cycDB`), the recursion is unbounded. -/
theorem C5_unwind_halts (sha3_db : List (Bytes × Bytes)) (k : Bytes) (n : Nat)
    (h : haltsIn sha3_db n k = true) :
    (unwrapAux sha3_db (n + 1) k).isSome = true :=
  unwrapAux_halts sha3_db n k h

/-- C5 witness: the two-level example database halts in two steps from `h2`. -/
theorem C5_unwind_halts_witness : (unwrapAux exDB1 (2 + 1) exH2).isSome = true :=
  C5_unwind_halts exDB1 exH2 2 (by decide)

/-! ## Source Position Index (`find_error_meta` / `find_source_of`,
vyper_contract.py:595-617)

Both lookups scan the computation's visited-pc list in reverse, returning
the first hit; an override attribute set by the IR executor bypasses the
scan.  The error map, pc-position map and ast map are the compiler's tables
(association lists here); AST nodes and source positions are opaque ids. -/

structure PcTrace where
  vyper_error_msg : Option String
  vyper_source_pos : Option Nat
  trace : List Nat

/-- Compiler error detail of the most recently executed pc present in the
error map, or the IR executor's override when set. -/
def find_error_meta (error_map : List (Nat × String)) (c : PcTrace) :
    Option String :=
  match c.vyper_error_msg with
  | some msg => some msg
  | none => c.trace.reverse.findSome? (fun pc => assoc error_map pc)

/-- AST node attributed to the most recently executed pc whose source
position is in the ast map, or the override's node when set. -/
def find_source_of (pc_pos_map : List (Nat × Nat)) (ast_map : List (Nat × Nat))
    (c : PcTrace) : Option Nat :=
  match c.vyper_source_pos with
  | some pos => assoc ast_map pos
  | none =>
    c.trace.reverse.findSome? (fun pc =>
      match assoc pc_pos_map pc with
      | some pos => assoc ast_map pos
      | none => none)

/-- C4. Both attribution lookups scan the visited-pc list most-recent-first:
on an empty trace they return nothing, and on `t ++ [pc]` the entry of `pc`
wins when it hits the map; otherwise the scan continues with `t`.  So the
most-recently-executed matching pc wins in both. -/
theorem C4_reverse_scan (error_map : List (Nat × String))
    (pc_pos_map ast_map : List (Nat × Nat)) (t : List Nat) (pc : Nat) :
    find_error_meta error_map (PcTrace.mk none none []) = none ∧
    find_error_meta error_map (PcTrace.mk none none (t ++ [pc])) =
      (match assoc error_map pc with
       | some v => some v
       | none => find_error_meta error_map (PcTrace.mk none none t)) ∧
    find_source_of pc_pos_map ast_map (PcTrace.mk none none []) = none ∧
    find_source_of pc_pos_map ast_map (PcTrace.mk none none (t ++ [pc])) =
      (match assoc pc_pos_map pc with
       | some pos => (match assoc ast_map pos with
                      | some node => some node
                      | none => find_source_of pc_pos_map ast_map
                          (PcTrace.mk none none t))
       | none => find_source_of pc_pos_map ast_map (PcTrace.mk none none t)) := by
  refine ⟨rfl, ?_, rfl, ?_⟩
  · rw [find_error_meta, find_error_meta]
    simp only [List.reverse_append, List.reverse_cons, List.reverse_nil,
      List.nil_append, List.cons_append, List.findSome?_cons]
    cases assoc error_map pc <;> rfl
  · rw [find_source_of, find_source_of]
    simp only [List.reverse_append, List.reverse_cons, List.reverse_nil,
      List.nil_append, List.cons_append, List.findSome?_cons]
    cases hpp : assoc pc_pos_map pc with
    | none => simp
    | some pos =>
      cases haa : assoc ast_map pos with
      | none => simp [haa]
      | some node => simp [haa]

/-! ## Frame / Trace Reconstructor (`VyperContract.stack_trace`,
vyper_contract.py:706-712)

Each computation contributes one reconstructed frame (its `ErrorDetail`:
here the compiler error detail, as `find_error_meta` yields it for that
computation, and the pretty VM revert reason).  `stack_trace` returns the
single-frame trace unless the frame's error detail is one of the
pass-through kinds, in which case it combines the last child call's trace
with this frame.  The child-combination step (`_handle_child_trace`, in
`boa/contracts/base_evm_contract.py`) is modelled from the spec: the
reconstructor recurses into the last child call in the trace and prepends
that child's own chain, innermost frame first. -/

structure TraceFrame where
  error_detail : Option String
  pretty_vm_reason : String

inductive Comp where
  | mk : TraceFrame → List Comp → Comp

def Comp.frame : Comp → TraceFrame
  | .mk f _ => f

def Comp.children : Comp → List Comp
  | .mk _ cs => cs

/-- Error messages for external calls (vyper_contract.py:67). -/
def EXTERNAL_CALL_ERRORS : List String :=
  ["external call failed", "returndatasize too small"]

/-- Error messages for create (vyper_contract.py:69). -/
def CREATE_ERRORS : List String := ["create failed", "create2 failed"]

/-- The source's `error_detail not in EXTERNAL_CALL_ERRORS + CREATE_ERRORS`
test, negated; a missing error detail is never pass-through. -/
def isPassThroughErr : Option String → Bool
  | none => false
  | some s => (EXTERNAL_CALL_ERRORS ++ CREATE_ERRORS).contains s

mutual

/-- Reconstructed stack trace of a failed computation, innermost frame
first.  Modelled from the spec where the source leaves this file: the
pass-through case recurses into the trace's last child call and prepends
that child's chain. -/
def stack_trace : Comp → List TraceFrame
  | .mk f cs =>
    if isPassThroughErr f.error_detail then lastChildTrace cs ++ [f]
    else [f]

/-- Modelled from the spec: the recursion of `_handle_child_trace`
(`boa/contracts/base_evm_contract.py`, outside the given sources) into the
last child call in the trace; with no child the frame stands alone. -/
def lastChildTrace : List Comp → List TraceFrame
  | [] => []
  | [c] => stack_trace c
  | _ :: rest => lastChildTrace rest

end

def exInnerFrame : TraceFrame := TraceFrame.mk none "bar"
def exOuterFrame : TraceFrame :=
  TraceFrame.mk (some "external call failed") "external call reverted"
def exInnerComp : Comp := Comp.mk exInnerFrame []
def exOuterComp : Comp := Comp.mk exOuterFrame [exInnerComp]

/-- C3. Stack-trace reconstruction yields the single-frame trace whenever
the frame's compiler error detail is not a pass-through kind; on the
two-level chain whose inner call reverts with reason "bar" and whose outer
error detail is "external call failed", the trace has length 2, frame 0
(innermost) carries reason "bar" and frame 1 (outermost) carries error
detail "external call failed". -/
theorem C3_stack_trace (f : TraceFrame) (cs : List Comp) :
    (isPassThroughErr f.error_detail = false → stack_trace (Comp.mk f cs) = [f]) ∧
    stack_trace exOuterComp = [exInnerFrame, exOuterFrame] ∧
    (stack_trace exOuterComp).length = 2 ∧
    (stack_trace exOuterComp).get? 0 = some exInnerFrame ∧
    exInnerFrame.pretty_vm_reason = "bar" ∧
    (stack_trace exOuterComp).get? 1 = some exOuterFrame ∧
    exOuterFrame.error_detail = some "external call failed" := by
  have hout : stack_trace exOuterComp = [exInnerFrame, exOuterFrame] := by
    rw [show exOuterComp = Comp.mk exOuterFrame [Comp.mk exInnerFrame []] from rfl]
    rw [stack_trace]
    norm_num [exOuterFrame, isPassThroughErr, EXTERNAL_CALL_ERRORS, CREATE_ERRORS]
    rw [lastChildTrace, stack_trace]
    norm_num [exInnerFrame, isPassThroughErr]
  refine ⟨?_, hout, by simp [hout], by simp [hout], rfl, by simp [hout], rfl⟩
  intro h
  rw [stack_trace, h]
  simp

/-! ## Storage / Immutable Introspector (`StorageVar`, `StorageModel`,
`setpath`, vyper_contract.py:340-424)

Vyper types are modelled as far as the storage claims need them: fixed
unsigned integers, addresses, static arrays and (nested) hash maps.  The
decoding of raw storage bytes (`decode_vyper_object` and
`ByteAddressableStorage` live in `boa/contracts/vyper/decoder_utils.py`,
outside the given sources) is modelled from the spec: storage decoding uses
the VM's native word layout, integers right-aligned in a 32-byte word,
addresses as the low 20 bytes of the word, static arrays element-wise.
Decoded Python values are `Val`; a decoded address is its 160-bit integer
value, and alias resolution replaces it by a known display name. -/

inductive VyType where
  | uint256 : VyType
  | address : VyType
  | sarray : VyType → Nat → VyType
  | hashmap : VyType → VyType → VyType

/-- The compiler's `memory_bytes_required` for the modelled types: one
32-byte word for integers and addresses, element count times element size
for static arrays.  A hash map type is never decoded directly (the source
raises there); its size is irrelevant and set to 0. -/
def memoryBytesRequired : VyType → Nat
  | .uint256 => 32
  | .address => 32
  | .sarray t n => n * memoryBytesRequired t
  | .hashmap _ _ => 0

/-- A decoded Python value: an integer (also the 160-bit value of an
address), a display name produced by alias resolution, or a list. -/
inductive Val where
  | num : Nat → Val
  | name : String → Val
  | arr : List Val → Val

/-- Equality of decoded values, the model of Python `==` on them. -/
def Val.beq : Val → Val → Bool
  | .num a, .num b => a == b
  | .name a, .name b => a == b
  | .arr [], .arr [] => true
  | .arr (x :: xs), .arr (y :: ys) => Val.beq x y && Val.beq (.arr xs) (.arr ys)
  | _, _ => false

/-- Python truthiness of a decoded value (`if val:` in `StorageVar.get`):
zero integers, empty strings and empty lists are falsy. -/
def truthy : Val → Bool
  | .num n => n != 0
  | .name s => s != ""
  | .arr l => !l.isEmpty

/-- Big-endian integer of `len` bytes of `mem` starting at `ofs`. -/
def beNatRange (mem : Nat → Nat) (ofs len : Nat) : Nat :=
  (List.range len).foldl (fun acc i => acc * 256 + mem (ofs + i)) 0

/-- Modelled from the spec: `decode_vyper_object`
(`boa/contracts/vyper/decoder_utils.py`, outside the given sources).
Integers are the big-endian value of their 32-byte word; an address is the
big-endian value of the low 20 bytes of its word; a static array decodes
element-wise at element-size offsets.  The hash map case is unreachable
(the source raises when asked to decode one). -/
def decodeVyperObject (mem : Nat → Nat) : VyType → Nat → Val
  | .uint256, ofs => .num (beNatRange mem ofs 32)
  | .address, ofs => .num (beNatRange mem (ofs + 12) 20)
  | .sarray t n, ofs =>
    .arr ((List.range n).map (fun i =>
      decodeVyperObject mem t (ofs + i * memoryBytesRequired t)))
  | .hashmap _ _, _ => .num 0

/-- Modelled from the spec: `ByteAddressableStorage`
(`boa/contracts/vyper/decoder_utils.py`, outside the given sources): the
account's consecutive 32-byte storage words starting at slot `slot`, viewed
as one byte-addressable region.  `storage` is the StorageReader capability,
one 32-byte word per slot index. -/
def byteAddressableStorage (storage : Nat → List Nat) (slot : Nat) :
    Nat → Nat :=
  fun i => (storage (slot + i / 32)).getD (i % 32) 0

/-- The per-contract environment `StorageVar` reads: the sha3 preimage
database, the written storage keys recorded for this contract's address
(`env.sstore_trace`), the storage-word reader, and the address-alias table
(`env.lookup_alias`). -/
structure SEnv where
  sha3_trace : List (Bytes × Bytes)
  sstore_keys : List Bytes
  storage : Nat → List Nat
  aliases : List (Nat × String)

/-- `StorageVar._decode` (vyper_contract.py:356): decoding a variable whose
type needs more bytes than the caller's `truncate_limit` yields `none`
(failure indicated to the caller); otherwise the raw bytes starting at
`slot` decode by type. -/
def svDecode (env : SEnv) (slot : Nat) (typ : VyType)
    (truncate_limit : Option Nat) : Option Val :=
  match truncate_limit with
  | some limit =>
    if limit < memoryBytesRequired typ then none
    else some (decodeVyperObject (byteAddressableStorage env.storage slot) typ 0)
  | none => some (decodeVyperObject (byteAddressableStorage env.storage slot) typ 0)

/-- `StorageVar._dealias` (vyper_contract.py:364): known addresses display
by name, anything not found falls back to the raw value. -/
def svDealias (env : SEnv) (v : Val) : Val :=
  match v with
  | .num a =>
    match assoc env.aliases a with
    | some nm => .name nm
    | none => v
  | _ => v

/-- A value of the nested path-indexed structure `StorageVar.get` builds
for mappings: a decoded leaf or a nested table. -/
inductive NVal where
  | leaf : Val → NVal
  | node : List (Val × NVal) → NVal

/-- Python `dict` lookup keyed by decoded values. -/
def nmLookup (m : List (Val × NVal)) (k : Val) : Option NVal :=
  match m with
  | [] => none
  | (k2, v) :: rest => if Val.beq k k2 then some v else nmLookup rest k

/-- Python `dict` update: an existing key keeps its position, a new key is
appended (insertion order). -/
def nmInsert (m : List (Val × NVal)) (k : Val) (v : NVal) :
    List (Val × NVal) :=
  match m with
  | [] => [(k, v)]
  | (k2, v2) :: rest =>
    if Val.beq k k2 then (k2, v) :: rest else (k2, v2) :: nmInsert rest k v

/-- `setpath` (vyper_contract.py:340): walk `path` through nested tables
(`setdefault(k, {})`), set the final component to `val`.  An empty path
writes nothing (the source's loop body never runs); descending into an
existing leaf is a `TypeError` in the source and leaves the table
unchanged here (unreachable for well-typed storage). -/
def setpath (lens : List (Val × NVal)) (path : List Val) (val : Val) :
    List (Val × NVal) :=
  match path with
  | [] => lens
  | [k] => nmInsert lens k (.leaf val)
  | k :: rest =>
    match nmLookup lens k with
    | some (.node sub) => nmInsert lens k (.node (setpath sub rest val))
    | some (.leaf _) => lens
    | none => nmInsert lens k (.node (setpath [] rest val))

/-- The key-decoding loop of `StorageVar.get` (vyper_contract.py:382-385):
each remaining path component decodes against the nested key types in
declaration order; the walked-off value type is the leaf type.  `none`
models the source raising when the path is deeper than the map's nesting or
stops at a map type. -/
def decodePath : VyType → List Bytes → Option (List (Val × VyType) × VyType)
  | ty, [] => some ([], ty)
  | .hashmap key_t val_t, p :: ps =>
    match decodePath val_t ps with
    | some (comps, leaf_t) =>
      some ((decodeVyperObject (fun i => p.getD i 0) key_t 0, key_t) :: comps,
        leaf_t)
    | none => none
  | _, _ :: _ => none

/-- One iteration of the written-keys loop of `StorageVar.get`
(vyper_contract.py:373-397): unwind the written key, skip it unless the
path's head is this variable's slot, decode the remaining components and
the leaf, and insert the dealiased path only when the leaf value is truthy
(a truncated leaf decodes to `None`, which is falsy and skipped). -/
def mapGetStep (env : SEnv) (slot : Nat) (typ : VyType)
    (truncate_limit : Option Nat) (ret : List (Val × NVal)) (k : Bytes) :
    List (Val × NVal) :=
  match unwrap_storage_key env.sha3_trace k with
  | none => ret
  | some [] => ret
  | some (p0 :: rest) =>
    if beNat p0 != slot then ret
    else
      match decodePath typ rest with
      | none => ret
      | some (comps, leaf_t) =>
        match svDecode env (beNat k) leaf_t truncate_limit with
        | none => ret
        | some val =>
          if truthy val then
            setpath ret
              (comps.map (fun ct =>
                match ct.2 with
                | .address => svDealias env ct.1
                | _ => ct.1))
              val
          else ret

/-- Result of `StorageVar.get`: a decoded simple value or, for a map-typed
variable, the nested path-indexed table. -/
inductive GetVal where
  | plain : Val → GetVal
  | table : List (Val × NVal) → GetVal

/-- `StorageVar.get` (vyper_contract.py:370): a map-typed variable folds
the written-keys loop from the empty table; any other variable decodes the
word(s) at its declared slot, `none` indicating truncation. -/
def storageVarGet (env : SEnv) (slot : Nat) (typ : VyType)
    (truncate_limit : Option Nat) : Option GetVal :=
  match typ with
  | .hashmap _ _ =>
    some (.table (env.sstore_keys.foldl
      (mapGetStep env slot typ truncate_limit) []))
  | _ => (svDecode env slot typ truncate_limit).map .plain

/-- A storage dump entry: the `"<truncated>"` sentinel substituted by
`StorageModel.dump` when `get` returns `None`, or `get`'s value. -/
inductive DumpEntry where
  | truncated : DumpEntry
  | plain : Val → DumpEntry
  | table : List (Val × NVal) → DumpEntry

/-- One variable's entry of `StorageModel.dump` (vyper_contract.py:415):
`get(truncate_limit=1024)`, with `None` replaced by the sentinel. -/
def dumpVar (env : SEnv) (slot : Nat) (typ : VyType) : DumpEntry :=
  match storageVarGet env slot typ (some 1024) with
  | none => .truncated
  | some (.plain v) => .plain v
  | some (.table m) => .table m

/-- `StorageModel.dump`: every declared storage variable's entry, keyed by
name, in declaration order. -/
def storageDump (env : SEnv) (declaredVars : List (String × Nat × VyType)) :
    List (String × DumpEntry) :=
  declaredVars.map (fun d => (d.1, dumpVar env d.2.1 d.2.2))

/-- Map-typed variable detection (`isinstance(self.typ, HashMapT)`). -/
def isHashMapT : VyType → Bool
  | .hashmap _ _ => true
  | _ => false

/-! Concrete two-level mapping `m[address][uint256]` at slot 0, with a
non-zero entry 42 at keys `(A, 7)` and zero at `(A, 8)`:
`hash(slot ‖ A) = h1m`, `hash(h1m ‖ 7) = kA7`, `hash(h1m ‖ 8) = kA8`;
both hashed keys were written, storage holds 42 at `kA7` and 0 at `kA8`. -/

def mapTy2 : VyType := VyType.hashmap .address (VyType.hashmap .uint256 .uint256)
def adrA : Bytes := List.replicate 12 0 ++ List.replicate 20 17
def key7B : Bytes := List.replicate 31 0 ++ [7]
def key8B : Bytes := List.replicate 31 0 ++ [8]
def slot0B : Bytes := List.replicate 32 0
def exH1m : Bytes := List.replicate 32 161
def exKA7 : Bytes := List.replicate 32 162
def exKA8 : Bytes := List.replicate 32 163
def word42 : List Nat := List.replicate 31 0 ++ [42]

def env2 : SEnv where
  sha3_trace :=
    [(exH1m, slot0B ++ adrA), (exKA7, exH1m ++ key7B), (exKA8, exH1m ++ key8B)]
  sstore_keys := [exKA7, exKA8]
  storage := fun s => if s == beNat exKA7 then word42 else List.replicate 32 0
  aliases := []

/-- The decoded 160-bit value of address `A`. -/
def numA : Nat := beNat (List.replicate 20 17)

set_option maxRecDepth 8192 in
/-- C2. A map-typed variable's dump inserts entries only for written keys
whose unwound path starts at the variable's declared slot and whose decoded
leaf value is truthy: a key whose path head is another slot is skipped, and
a zero (falsy) leaf is skipped.  For the two-level mapping `m` with 42 at
`(A, 7)` and 0 at `(A, 8)`, the dump is `{m: {A: {7: 42}}}` and key 8 is
absent. -/
theorem C2_mapping_dump (env : SEnv) (slot : Nat) (typ : VyType)
    (tl : Option Nat) (ret : List (Val × NVal)) (k : Bytes) :
    (∀ p0 rest, unwrap_storage_key env.sha3_trace k = some (p0 :: rest) →
      beNat p0 ≠ slot → mapGetStep env slot typ tl ret k = ret) ∧
    (∀ p0 rest comps leaf_t v,
      unwrap_storage_key env.sha3_trace k = some (p0 :: rest) →
      decodePath typ rest = some (comps, leaf_t) →
      svDecode env (beNat k) leaf_t tl = some v →
      truthy v = false → mapGetStep env slot typ tl ret k = ret) ∧
    storageDump env2 [("m", 0, mapTy2)] =
      [("m", DumpEntry.table
        [(Val.num numA, NVal.node [(Val.num 7, NVal.leaf (Val.num 42))])])] := by
  refine ⟨?_, ?_, by rfl⟩
  · intro p0 rest hu hne
    rw [mapGetStep]
    simp only [hu]
    simp [bne_iff_ne, hne]
  · intro p0 rest comps leaf_t v hu hdp hsv htr
    rw [mapGetStep]
    simp only [hu]
    cases hb : (beNat p0 != slot) with
    | true => simp [hb]
    | false => simp [hb, hdp, hsv, htr]

/-! Concrete mapping `m[uint256] -> uint256[100]` at slot 1 whose single
written entry's leaf type needs 3200 bytes, over `dump`'s limit of 1024. -/

def bigTy : VyType := VyType.sarray .uint256 100
def mapTy9 : VyType := VyType.hashmap .uint256 bigTy
def slot1B : Bytes := List.replicate 31 0 ++ [1]
def exK9 : Bytes := List.replicate 32 170
def key5B : Bytes := List.replicate 31 0 ++ [5]

def env9 : SEnv where
  sha3_trace := [(exK9, slot1B ++ key5B)]
  sstore_keys := [exK9]
  storage := fun _ => List.replicate 32 0
  aliases := []

/-- C9 counterexample. Dumping the mapping `m[uint256] -> uint256[100]`
(leaf needs 3200 bytes, limit 1024) with one written key yields an empty
table for `m`: the oversized leaf is silently dropped, and no "truncated"
sentinel appears anywhere in the entry. -/
theorem C9_cex_mapping_leaf_dropped :
    storageDump env9 [("m", 1, mapTy9)] = [("m", DumpEntry.table [])] ∧
    ¬ dumpVar env9 1 mapTy9 = DumpEntry.truncated :=
  ⟨by rfl, fun h => nomatch h⟩

/-- C9 (amended). A decode whose type needs more bytes than the limit
yields `None`; for a simple (non-map) variable the dump substitutes the
"truncated" sentinel for it, but for a map-typed variable an oversized leaf
value is falsy and its entry is silently omitted from the table, with no
sentinel. -/
theorem C9_truncation (env : SEnv) (slot : Nat) (typ : VyType) (n : Nat) :
    (n < memoryBytesRequired typ → svDecode env slot typ (some n) = none) ∧
    (isHashMapT typ = false → 1024 < memoryBytesRequired typ →
      dumpVar env slot typ = DumpEntry.truncated) ∧
    (∀ tl ret k p0 rest comps leaf_t,
      unwrap_storage_key env.sha3_trace k = some (p0 :: rest) →
      decodePath typ rest = some (comps, leaf_t) →
      svDecode env (beNat k) leaf_t tl = none →
      mapGetStep env slot typ tl ret k = ret) ∧
    dumpVar env9 0 bigTy = DumpEntry.truncated := by
  refine ⟨?_, ?_, ?_, by rfl⟩
  · intro h
    rw [svDecode]
    simp [h]
  · intro hnm h
    rw [dumpVar]
    cases typ with
    | hashmap kt vt => simp [isHashMapT] at hnm
    | uint256 => simp [memoryBytesRequired] at h
    | address => simp [memoryBytesRequired] at h
    | sarray t m =>
      have hsv : svDecode env slot (VyType.sarray t m) (some 1024) = none := by
        rw [svDecode]
        simp [h]
      simp [storageVarGet, hsv]
  · intro tl ret k p0 rest comps leaf_t hu hdp hsv
    rw [mapGetStep]
    simp only [hu]
    cases hb : (beNat p0 != slot) with
    | true => simp [hb]
    | false => simp [hb, hdp, hsv]

/-! ## Event Decoder (`VyperContract.get_logs` / `decode_log`,
vyper_contract.py:629-681)

A py-evm log entry is `(log_id, address, topics, data)`.  `get_logs` sorts
the entries (tuples sort on `log_id` first; sequence ids are unique per
trace), then decodes each: an entry whose logger address has a registered
contract goes through that contract's `decode_log`, anything else becomes a
`RawEvent`.  `decode_log` indexes the contract's event table by topic 0
(`self.event_for[event_hash]`), a plain dict indexing that raises `KeyError`
when the selector is unknown; `none` models that raise aborting the whole
`get_logs` call.  The ABI decoding of topics and data (`abi_decode` in
`boa.util.abi`, outside the given sources) is kept abstract: the decoded
event carries the matched event's name with the raw topics and data. -/

structure LogEntry where
  log_id : Nat
  addr : Nat
  topics : List Nat
  data : List Nat

/-- A contract as the log decoder sees it: its event table, selector hash
to declared event (represented by its name). -/
structure ContractEvents where
  event_for : List (Nat × String)

inductive DecodedLog where
  | raw : LogEntry → DecodedLog
  | ev : Nat → Nat → String → List Nat → List Nat → DecodedLog

/-- `VyperContract.decode_log`: the event type selected by topic 0; `none`
models the `KeyError` raised when topic 0 is not in the event table (or the
`IndexError` on an entry with no topics). -/
def decode_log (c : ContractEvents) (e : LogEntry) : Option DecodedLog :=
  match e.topics with
  | [] => none
  | t0 :: restTopics =>
    match assoc c.event_for t0 with
    | none => none
    | some evName => some (.ev e.log_id e.addr evName restTopics e.data)

/-- Stable insertion by sequence id, the model of Python `sorted` on log
tuples (which compares `log_id` first; ids are unique per trace). -/
def insertLog (e : LogEntry) : List LogEntry → List LogEntry
  | [] => [e]
  | x :: xs => if e.log_id ≤ x.log_id then e :: x :: xs else x :: insertLog e xs

/-- The `entries = sorted(entries)` step of `get_logs`. -/
def sortLogs (l : List LogEntry) : List LogEntry :=
  l.foldr insertLog []

/-- Ascending sequence ids. -/
def sortedByLogId : List LogEntry → Bool
  | [] => true
  | [_] => true
  | x :: y :: rest =>
    if x.log_id ≤ y.log_id then sortedByLogId (y :: rest) else false

/-- `VyperContract.get_logs`: sort the raw entries by sequence id, then
decode each entry through its logger's registered contract, or keep it as a
`RawEvent` when no contract is registered at the logger address; a
`decode_log` raise (`none`) aborts the whole call. -/
def get_logs (contracts : List (Nat × ContractEvents))
    (entries : List LogEntry) : Option (List DecodedLog) :=
  (sortLogs entries).mapM (fun e =>
    match assoc contracts e.addr with
    | some c => decode_log c e
    | none => some (.raw e))

theorem insertLog_sorted (e : LogEntry) :
    ∀ l, sortedByLogId l = true → sortedByLogId (insertLog e l) = true := by
  intro l
  induction l with
  | nil => intro _; rfl
  | cons x xs ih =>
    intro h
    rw [insertLog]
    by_cases hle : e.log_id ≤ x.log_id
    · simp only [if_pos hle]
      rw [sortedByLogId, if_pos hle]
      exact h
    · simp only [if_neg hle]
      have hxe : x.log_id ≤ e.log_id := Nat.le_of_not_le hle
      cases xs with
      | nil =>
        rw [insertLog, sortedByLogId, if_pos hxe]
        rfl
      | cons y ys =>
        have hxy : x.log_id ≤ y.log_id := by
          rw [sortedByLogId] at h
          by_cases hxy2 : x.log_id ≤ y.log_id
          · exact hxy2
          · rw [if_neg hxy2] at h; exact absurd h (by simp)
        have htail : sortedByLogId (y :: ys) = true := by
          rw [sortedByLogId, if_pos hxy] at h
          exact h
        have hrec := ih htail
        rw [insertLog]
        by_cases hey : e.log_id ≤ y.log_id
        · rw [if_pos hey, sortedByLogId, if_pos hxe, sortedByLogId, if_pos hey]
          exact htail
        · rw [if_neg hey, sortedByLogId, if_pos hxy]
          rw [insertLog, if_neg hey] at hrec
          exact hrec

theorem sortLogs_sorted : ∀ l, sortedByLogId (sortLogs l) = true := by
  intro l
  induction l with
  | nil => rfl
  | cons x xs ih =>
    rw [sortLogs, List.foldr_cons]
    exact insertLog_sorted x _ ih

def c6Contract : ContractEvents := ContractEvents.mk []
def c6Entry : LogEntry := LogEntry.mk 0 5 [99] []

/-- C6 counterexample. With a contract registered at the logger address
whose event table lacks the entry's topic-0 selector, `get_logs` fails as a
whole (`decode_log` raises `KeyError`); no raw/opaque event is produced for
an unknown selector. -/
theorem C6_cex_unknown_selector :
    get_logs [(5, c6Contract)] [c6Entry] = none ∧
    decode_log c6Contract c6Entry = none := by
  exact ⟨rfl, rfl⟩

/-- C6 (amended). Log entries are sorted by sequence id before decoding,
and both the sorting function's output and `get_logs`'s processing order
are id-ascending.  The raw/opaque representation arises for an entry whose
logger address has no registered contract; when the address is registered
but topic 0 is absent from that contract's event table, `decode_log` raises
and the whole `get_logs` call fails instead of yielding a raw event. -/
theorem C6_logs (contracts : List (Nat × ContractEvents))
    (entries : List LogEntry) (e : LogEntry) :
    sortedByLogId (sortLogs entries) = true ∧
    get_logs contracts entries =
      (sortLogs entries).mapM (fun e2 =>
        match assoc contracts e2.addr with
        | some c => decode_log c e2
        | none => some (.raw e2)) ∧
    (assoc contracts e.addr = none →
      get_logs contracts [e] = some [DecodedLog.raw e]) ∧
    (∀ c t0 restTopics, assoc contracts e.addr = some c →
      e.topics = t0 :: restTopics → assoc c.event_for t0 = none →
      get_logs contracts [e] = none) := by
  refine ⟨sortLogs_sorted entries, rfl, ?_, ?_⟩
  · intro h
    rw [get_logs]
    rw [show sortLogs [e] = [e] from rfl]
    simp [h, List.mapM.loop]
  · intro c t0 restTopics hc htop hev
    rw [get_logs]
    rw [show sortLogs [e] = [e] from rfl]
    simp [hc, List.mapM.loop, decode_log, htop, hev]

/-! ## Error Matcher (`check_boa_error_matches`, vyper_contract.py:265-318)

A reconstructed failure frame as the matcher reads it: the compiler error
detail (may be absent), the pretty-printed VM revert reason, the
developer-authored reason (kind, text) parsed from the source line (may be
absent), and whether the attributed AST node sits under an assert/raise
statement.  The expectation is a bare string or one tagged keyword; an
expectation violation raises (`ValueError` from `_check`, or a bare
`AssertionError` for the reserved-kind guard), modelled as `Except.error`
with the source's message. -/

structure ErrFrame where
  error_detail : Option String
  pretty_vm_reason : String
  dev_reason : Option (String × String)
  ast_in_assert : Bool

/-- Error details where the user possibly provided a dev revert reason
(vyper_contract.py:72). -/
def DEV_REASON_ALLOWED : List String := ["user raise", "user assert"]

/-- Python interpolation of an optional error detail into a message. -/
def optDetailStr : Option String → String
  | some s => s
  | none => "None"

/-- Python interpolation of an optional dev reason (its `__str__`). -/
def devReasonStr : Option (String × String) → String
  | none => "None"
  | some dr => "<" ++ dr.1 ++ ": " ++ dr.2 ++ ">"

def mismatchMsg (a b : String) : String := a ++ " != " ++ b

inductive MatchArg where
  | bare : String → MatchArg
  | kw : String → String → MatchArg

/-- The keyword branches of `check_boa_error_matches`
(vyper_contract.py:293-318): `compiler=` compares the error detail exactly,
`vm_error=` requires the detail "user revert with reason" and compares the
pretty VM reason, any other keyword is a dev-reason kind and must match the
frame's dev reason (with the user-raised guard for assert/raise nodes). -/
def checkKw (frame : ErrFrame) (k v : String) : Except String Unit :=
  if k == "compiler" then
    if frame.error_detail == some v then .ok ()
    else .error (mismatchMsg (optDetailStr frame.error_detail) v)
  else if k == "vm_error" then
    if frame.error_detail == some "user revert with reason"
        && v == frame.pretty_vm_reason then .ok ()
    else .error (mismatchMsg frame.pretty_vm_reason v)
  else
    if frame.ast_in_assert
        && !(match frame.error_detail with
             | some s => DEV_REASON_ALLOWED.contains s
             | none => false) then
      .error ("expected <" ++ k ++ ": " ++ v ++ "> but got <compiler: "
        ++ optDetailStr frame.error_detail ++ ">")
    else
      match frame.dev_reason with
      | some dr =>
        if k == dr.1 && v == dr.2 then .ok ()
        else .error ("expected <" ++ k ++ ": " ++ v ++ "> but got "
          ++ devReasonStr frame.dev_reason)
      | none =>
        .error ("expected <" ++ k ++ ": " ++ v ++ "> but got "
          ++ devReasonStr frame.dev_reason)

/-- `check_boa_error_matches` on the last frame: a bare string matches the
pretty VM reason, the error detail or the dev-reason text (first match
wins); a keyword expectation first hits the "don't accept magic" guard — a
frame whose dev reason has the reserved kind "vm_error" or "compiler" fails
the assertion outright — then the keyword branch. -/
def check_boa_error_matches (frame : ErrFrame) : MatchArg → Except String Unit
  | .bare err =>
    if err == frame.pretty_vm_reason
        || (match frame.error_detail with
            | some s => err == s
            | none => false)
        || (match frame.dev_reason with
            | some dr => err == dr.2
            | none => false) then .ok ()
    else .error "does not match"
  | .kw k v =>
    match frame.dev_reason with
    | some dr =>
      if dr.1 == "vm_error" || dr.1 == "compiler" then
        .error "dev reason type is reserved"
      else checkKw frame k v
    | none => checkKw frame k v

/-- The frame passes the matcher's "don't accept magic" guard: its dev
reason, if any, is not of a reserved kind. -/
def noMagicDevReason (frame : ErrFrame) : Bool :=
  match frame.dev_reason with
  | some dr => !(dr.1 == "vm_error" || dr.1 == "compiler")
  | none => true

def c7Frame : ErrFrame := ErrFrame.mk (some "x") "reason" (some ("compiler", "note")) false

/-- C7 counterexample. A frame whose error detail equals the expected
string "x" exactly, but whose dev reason carries the reserved kind
"compiler": the matcher fails on the reserved-kind assertion even though
the error detail matches, so "matches if and only if the strings are equal"
does not hold. -/
theorem C7_cex_magic_dev_reason :
    c7Frame.error_detail = some "x" ∧
    check_boa_error_matches c7Frame (MatchArg.kw "compiler" "x") =
      Except.error "dev reason type is reserved" := by
  exact ⟨rfl, rfl⟩

def c7OkFrame : ErrFrame := ErrFrame.mk (some "abc") "reason" none false

/-- C7 (amended). On a frame that passes the reserved-kind guard, the
`compiler=` expectation matches exactly, case-sensitively, when the string
equals the frame's error detail, independent of the VM revert reason; a
frame with a reserved-kind dev reason is rejected regardless.  Concretely,
"abc" matches a frame with detail "abc" and "Abc" fails with the source's
mismatch message. -/
theorem C7_compiler_kw (frame : ErrFrame) (s : String) :
    (noMagicDevReason frame = true →
      (check_boa_error_matches frame (MatchArg.kw "compiler" s) = Except.ok () ↔
        frame.error_detail = some s)) ∧
    (noMagicDevReason frame = false →
      check_boa_error_matches frame (MatchArg.kw "compiler" s) =
        Except.error "dev reason type is reserved") ∧
    check_boa_error_matches c7OkFrame (MatchArg.kw "compiler" "abc") =
      Except.ok () ∧
    check_boa_error_matches c7OkFrame (MatchArg.kw "compiler" "Abc") =
      Except.error "abc != Abc" := by
  refine ⟨?_, ?_, rfl, rfl⟩
  · intro hg
    rw [check_boa_error_matches]
    cases hdr : frame.dev_reason with
    | none =>
      rw [checkKw]
      simp only [if_pos (by rfl : ("compiler" == "compiler") = true)]
      by_cases he : frame.error_detail = some s
      · simp [he]
      · have hb : (frame.error_detail == some s) = false := by
          cases hd2 : frame.error_detail with
          | none => rfl
          | some t =>
            rw [hd2] at he
            simp only [Option.some.injEq] at he ⊢
            simpa using he
        simp [hb, he]
    | some dr =>
      rw [noMagicDevReason, hdr] at hg
      simp only [Bool.not_eq_true'] at hg
      simp only [hg]
      rw [checkKw]
      simp only [if_pos (by rfl : ("compiler" == "compiler") = true)]
      by_cases he : frame.error_detail = some s
      · simp [he]
      · have hb : (frame.error_detail == some s) = false := by
          cases hd2 : frame.error_detail with
          | none => rfl
          | some t =>
            rw [hd2] at he
            simp only [Option.some.injEq] at he ⊢
            simpa using he
        simp [hb, he]
  · intro hg
    rw [check_boa_error_matches]
    cases hdr : frame.dev_reason with
    | none => rw [noMagicDevReason, hdr] at hg; exact absurd hg (by simp)
    | some dr =>
      rw [noMagicDevReason, hdr] at hg
      dsimp only at hg ⊢
      have hg2 : (dr.1 == "vm_error" || dr.1 == "compiler") = true := by
        cases hb : (dr.1 == "vm_error" || dr.1 == "compiler") with
        | true => rfl
        | false => rw [hb] at hg; simp at hg
      rw [if_pos hg2]

theorem check_kw_guard (frame : ErrFrame) (k v : String)
    (hg : noMagicDevReason frame = true) :
    check_boa_error_matches frame (MatchArg.kw k v) = checkKw frame k v := by
  rw [check_boa_error_matches]
  cases hdr : frame.dev_reason with
  | none => rfl
  | some dr =>
    rw [noMagicDevReason, hdr] at hg
    dsimp only at hg ⊢
    have hg2 : (dr.1 == "vm_error" || dr.1 == "compiler") = false := by
      cases hb : (dr.1 == "vm_error" || dr.1 == "compiler") with
      | false => rfl
      | true => rw [hb] at hg; simp at hg
    rw [hg2]
    simp

def c8Frame : ErrFrame :=
  ErrFrame.mk (some "user revert with reason") "boom" (some ("vm_error", "z")) false

/-- C8 counterexample. A frame whose error detail is exactly "user revert
with reason" and whose pretty VM reason equals the expected string "boom",
but whose dev reason carries the reserved kind "vm_error": the matcher
fails on the reserved-kind assertion even though both conditions of the
claim hold, so the claimed "if and only if" fails. -/
theorem C8_cex_magic_dev_reason :
    c8Frame.error_detail = some "user revert with reason" ∧
    c8Frame.pretty_vm_reason = "boom" ∧
    check_boa_error_matches c8Frame (MatchArg.kw "vm_error" "boom") =
      Except.error "dev reason type is reserved" := by
  exact ⟨rfl, rfl, rfl⟩

def c8OkFrame : ErrFrame :=
  ErrFrame.mk (some "user revert with reason") "boom" none false

/-- C8 (amended). On a frame that passes the reserved-kind guard, the
`vm_error=` expectation matches exactly when the string equals the pretty
VM revert reason and the error detail is "user revert with reason"; when
either condition fails the matcher fails with the source's descriptive
mismatch message.  A frame with a reserved-kind dev reason is rejected
before the comparison. -/
theorem C8_vm_error_kw (frame : ErrFrame) (s : String) :
    (noMagicDevReason frame = true →
      (check_boa_error_matches frame (MatchArg.kw "vm_error" s) = Except.ok () ↔
        (frame.error_detail = some "user revert with reason" ∧
          s = frame.pretty_vm_reason))) ∧
    (noMagicDevReason frame = true →
      check_boa_error_matches frame (MatchArg.kw "vm_error" s) ≠ Except.ok () →
      check_boa_error_matches frame (MatchArg.kw "vm_error" s) =
        Except.error (mismatchMsg frame.pretty_vm_reason s)) ∧
    check_boa_error_matches c8OkFrame (MatchArg.kw "vm_error" "boom") =
      Except.ok () := by
  have hred : ∀ fr : ErrFrame, checkKw fr "vm_error" s =
      (if (fr.error_detail == some "user revert with reason"
          && (s == fr.pretty_vm_reason)) = true then Except.ok ()
       else Except.error (mismatchMsg fr.pretty_vm_reason s)) := fun fr => rfl
  refine ⟨?_, ?_, rfl⟩
  · intro hg
    rw [check_kw_guard frame "vm_error" s hg, hred]
    constructor
    · intro hok
      by_cases hC : (frame.error_detail == some "user revert with reason"
          && (s == frame.pretty_vm_reason)) = true
      · simp only [Bool.and_eq_true, beq_iff_eq] at hC
        exact ⟨hC.1, hC.2⟩
      · rw [if_neg hC] at hok
        exact absurd hok (by simp)
    · intro hand
      have hC : (frame.error_detail == some "user revert with reason"
          && (s == frame.pretty_vm_reason)) = true := by
        simp [Bool.and_eq_true, beq_iff_eq, hand.1, hand.2]
      rw [if_pos hC]
  · intro hg hne
    rw [check_kw_guard frame "vm_error" s hg, hred] at hne ⊢
    by_cases hC : (frame.error_detail == some "user revert with reason"
        && (s == frame.pretty_vm_reason)) = true
    · rw [if_pos hC] at hne
      exact absurd rfl hne
    · rw [if_neg hC]

/-! ## Return-value marshaling (`marshal_to_python` / `vyper_object`,
vyper_contract.py:683-704 and 1054-1072)

A decoded Python value (`PyVal`) is what `abi_decode` hands back; the
declared return type of a call is `RetType` (a tuple of member types, or a
single type).  `vyper_object` wraps the value in a thin wrapper carrying
the declared type as `_vyper_type`, except that `bool` and `Address`
values are returned as-is (vyper_contract.py:1059).  `marshal_to_python`
returns nothing for a call with no declared return type; a declared
non-tuple type unwraps the decoded one-tuple (`(ret,) = ret`), and `none`
on a non-singleton models the raise of that destructuring. -/

inductive PyVal where
  | int : Int → PyVal
  | boolean : Bool → PyVal
  | address : Nat → PyVal
  | bytes : List Nat → PyVal
  | str : String → PyVal
  | tuple : List PyVal → PyVal

inductive RetType where
  | simple : VyType → RetType
  | tupleOf : List VyType → RetType

inductive Marshaled where
  | plain : PyVal → Marshaled
  | wrapped : PyVal → RetType → Marshaled

/-- `vyper_object`: tag the value with its declared type, except `bool` and
`Address` values, which are returned untagged. -/
def vyper_object (val : PyVal) (vyper_type : RetType) : Marshaled :=
  match val with
  | .boolean _ => .plain val
  | .address _ => .plain val
  | _ => .wrapped val vyper_type

/-- `marshal_to_python`, after the ABI decode of the output: `none` for no
declared return type; otherwise the decoded tuple (unwrapped when the
declared type is not a tuple) goes through `vyper_object`. -/
def marshal_to_python (vyper_typ : Option RetType) (decoded : List PyVal) :
    Option Marshaled :=
  match vyper_typ with
  | none => none
  | some t =>
    match t with
    | .tupleOf _ => some (vyper_object (.tuple decoded) t)
    | .simple _ =>
      match decoded with
      | [x] => some (vyper_object x t)
      | _ => none

/-- C10. A call with no declared return type marshals to nothing; a
declared non-tuple return type marshals its single decoded value through
`vyper_object`, which wraps the value with the declared type tag except
for booleans and addresses, returned as-is with no tag. -/
theorem C10_marshal (t : RetType) (vt : VyType) (b : Bool) (a : Nat)
    (n : Int) (s : String) (bs : List Nat) (l : List PyVal)
    (decoded : List PyVal) (x : PyVal) :
    marshal_to_python none decoded = none ∧
    marshal_to_python (some (RetType.simple vt)) [x] =
      some (vyper_object x (RetType.simple vt)) ∧
    marshal_to_python (some (RetType.tupleOf [vt])) decoded =
      some (vyper_object (PyVal.tuple decoded) (RetType.tupleOf [vt])) ∧
    vyper_object (PyVal.boolean b) t = Marshaled.plain (PyVal.boolean b) ∧
    vyper_object (PyVal.address a) t = Marshaled.plain (PyVal.address a) ∧
    vyper_object (PyVal.int n) t = Marshaled.wrapped (PyVal.int n) t ∧
    vyper_object (PyVal.str s) t = Marshaled.wrapped (PyVal.str s) t ∧
    vyper_object (PyVal.bytes bs) t = Marshaled.wrapped (PyVal.bytes bs) t ∧
    vyper_object (PyVal.tuple l) t = Marshaled.wrapped (PyVal.tuple l) t :=
  ⟨rfl, rfl, rfl, rfl, rfl, rfl, rfl, rfl, rfl⟩
